import Mathlib

/-!
Verification development for the IoT data-ingestion service
(`services/data-ingestion/app`): a shallow embedding of the ingestion
engine (`ingestion_service.py`), the Kafka producer wrapper
(`kafka_producer.py`), the Redis state store (`redis_service.py`), the
MQTT subscription ingress (`mqtt_service.py`), the pydantic schemas
(`schemas/ingestion.py`) and the HTTP ingest handler (`main.py`).

Modelling conventions:
- Python dynamic values are the inductive `Py`; `dict` is an association
  list with string keys (the only key type this code uses).
- Python `float` and `int` are both modelled as `ℚ`; none of the
  verified properties depends on binary floating-point rounding, and the
  thresholds involved (50, 0, 10) are exact in every representation.
- Exceptions are `Except PyErr`; `try/except Exception` blocks become
  `match` on the `Except` value.
- Wall-clock time is `ℕ` (seconds); `datetime.utcnow()` is the `now`
  field of the world state and `isoformat()` is an injective rendering.
- External collaborators are oracles inside the world state: the device
  registry is a function from device id to the optional 200-response
  body, Kafka send failure is a per-topic failure oracle, Redis failure
  is a flag.
-/

namespace IoTIngest

/-- Dynamic Python-style value: `None`, `bool`, numbers (`int`/`float`
conflated as `ℚ`), strings, lists, and string-keyed dicts. -/
inductive Py where
  | none
  | bool (b : Bool)
  | num (q : ℚ)
  | str (s : String)
  | list (xs : List Py)
  | dict (kvs : List (String × Py))

/-- The Python exception kinds this code can raise. -/
inductive PyErr where
  | keyError
  | typeError
  | valueError
  | attributeError
deriving DecidableEq

/-- `str(e)` for an exception, as used in the error payloads. -/
def errStr : PyErr → String
  | .keyError => "KeyError"
  | .typeError => "TypeError"
  | .valueError => "ValueError"
  | .attributeError => "AttributeError"

/-- First binding of a key in an association list (the model dicts never
hold duplicate keys). -/
def dictLookup : List (String × Py) → String → Option Py
  | [], _ => none
  | (k', v) :: rest, k => if k' = k then some v else dictLookup rest k

/-- Python `d[k]`: `KeyError` on a missing key, `TypeError` when the
subscripted value is not a dict. -/
def pyGetItem (p : Py) (k : String) : Except PyErr Py :=
  match p with
  | .dict kvs =>
    match dictLookup kvs k with
    | some v => .ok v
    | none => .error .keyError
  | _ => .error .typeError

/-- Python `d.get(k, dflt)`: `AttributeError` when the receiver is not a
dict (no `.get` method). -/
def pyGetD (p : Py) (k : String) (dflt : Py) : Except PyErr Py :=
  match p with
  | .dict kvs => .ok ((dictLookup kvs k).getD dflt)
  | _ => .error .attributeError

/-- Python `d.get(k)` (default `None`). -/
def pyGetOpt (p : Py) (k : String) : Except PyErr Py :=
  pyGetD p k .none

/-- Python truthiness. -/
def pyTruthy : Py → Bool
  | .none => false
  | .bool b => b
  | .num q => q != 0
  | .str s => s != ""
  | .list xs => !xs.isEmpty
  | .dict kvs => !kvs.isEmpty

/-- Python `x == "lit"` for a dynamic `x`: true only for an equal string
(no cross-type equality arises for the values this code compares). -/
def pyEqStr : Py → String → Bool
  | .str s, t => s == t
  | _, _ => false

/-- Python `len(x)`: defined for strings, lists and dicts, `TypeError`
otherwise. -/
def pyLen : Py → Except PyErr ℕ
  | .str s => .ok s.length
  | .list xs => .ok xs.length
  | .dict kvs => .ok kvs.length
  | _ => .error .typeError

/-- Python iteration `for x in p`: lists yield elements, strings yield
one-character strings, dicts yield their keys; other values raise
`TypeError`. -/
def pyIter : Py → Except PyErr (List Py)
  | .list xs => .ok xs
  | .str s => .ok (s.toList.map fun c => .str (String.mk [c]))
  | .dict kvs => .ok (kvs.map fun kv => .str kv.1)
  | _ => .error .typeError

/-- Value of a list of decimal digit characters. -/
def digitsVal (ds : List Char) : ℕ :=
  ds.foldl (fun n c => 10 * n + (c.toNat - 48)) 0

/-- Decimal-numeral parser modelling the fragment of Python `float(str)`
this repository can meet: optional sign, an integer part and an optional
fraction part, at least one digit overall.  (Exponents, `inf`, `nan` and
surrounding whitespace are not modelled; no verified property involves
them.)  Returns `none` exactly when Python would raise `ValueError` on
the modelled fragment. -/
def strToRat? (s : String) : Option ℚ :=
  let core : List Char → Option ℚ := fun cs =>
    let ip := cs.takeWhile (· ≠ '.')
    let rest := cs.dropWhile (· ≠ '.')
    let fp : Option (List Char) :=
      match rest with
      | [] => some []
      | _ :: f => some f
    match fp with
    | none => none
    | some f =>
      if ip.all Char.isDigit && f.all Char.isDigit && (!ip.isEmpty || !f.isEmpty) then
        some ((digitsVal ip : ℚ) + (digitsVal f : ℚ) / ((10 : ℚ) ^ f.length))
      else none
  match s.toList with
  | '-' :: rest => (core rest).map (fun q => -q)
  | '+' :: rest => core rest
  | cs => core cs

/-- Python `float(x)` on a dynamic value: numbers pass through, bools
coerce to 1/0, strings are parsed (`ValueError` if unparsable), every
other type raises `TypeError`. -/
def pyFloat : Py → Except PyErr ℚ
  | .num q => .ok q
  | .bool b => .ok (if b then 1 else 0)
  | .str s =>
    match strToRat? s with
    | some q => .ok q
    | none => .error .valueError
  | _ => .error .typeError

/-- Rendering of a rational for interpolated strings (abstraction of
Python float formatting; no verified property depends on the exact
text). -/
def fmtRat (q : ℚ) : String :=
  toString q.num ++ (if q.den = 1 then "" else "/" ++ toString q.den)

/-- Python f-string rendering of a dynamic value (container rendering is
abstracted; only strings are ever formatted in the verified claims). -/
def fstr : Py → String
  | .str s => s
  | .num q => fmtRat q
  | .bool b => if b then "True" else "False"
  | .none => "None"
  | .list _ => "<list>"
  | .dict _ => "<dict>"

/-- `datetime.utcnow().isoformat()` at model time `t`. -/
def isoTimestamp (t : ℕ) : String :=
  "1970-01-01T00:00:" ++ toString t

/-! ### Configuration (`config.py`) -/

def kafkaTopicData : String := "iot-data"
def kafkaTopicAlerts : String := "iot-alerts"
def kafkaTopicHealth : String := "iot-health"
def kafkaTopicErrors : String := "iot-errors"

/-! ### Kafka producer (`kafka_producer.py`) -/

/-- One message recorded on the bus: topic, serialized key, payload. -/
structure KafkaMsg where
  topic : String
  key : Option String
  value : Py

/-- Producer state: connection flag, a per-topic failure oracle for
`send_and_wait` (a `true` topic makes the send raise `KafkaError`,
which `send_message` catches), and the durable log of acknowledged
messages. -/
structure KafkaState where
  connected : Bool
  failTopics : String → Bool
  log : List KafkaMsg

/-- The producer's `key_serializer`: `k.encode("utf-8") if k else None`.
A falsy key serializes to no key; `.encode` on a non-string raises
(inside `send_and_wait`, hence caught by `send_message`). -/
def encodeKey (k : Py) : Except PyErr (Option String) :=
  if pyTruthy k then
    match k with
    | .str s => .ok (some s)
    | _ => .error .attributeError
  else .ok none

/-- `KafkaProducerService.send_message`: returns `False` without raising
when the producer is disconnected, when serialization fails, or when
`send_and_wait` raises; appends to the log and returns `True` on
success.  It never lets an exception escape. -/
def sendMessage (k : KafkaState) (topic : String) (value : Py) (key : Py) :
    Bool × KafkaState :=
  if !k.connected then (false, k)
  else
    match encodeKey key with
    | .error _ => (false, k)
    | .ok keyStr =>
      if k.failTopics topic then (false, k)
      else (true, { k with log := k.log ++ [⟨topic, keyStr, value⟩] })

/-- Messages a log holds on one topic. -/
def msgsOnTopic (log : List KafkaMsg) (topic : String) : List KafkaMsg :=
  log.filter (fun m => m.topic == topic)

/-! ### Redis state store (`redis_service.py`)

TTLs other than the device-info cache expiry (the 24-hour last-seen
expiry, the 5-minute active-set expiry, the 7-day daily-counter
retention) are not observed by any verified claim and are elided; the
device-info cache TTL, which claim C6 is about, is modelled exactly. -/

/-- Store state.  `failing` makes every Redis operation raise (each
caller catches and degrades).  The cache maps a key to a value plus its
absolute expiry time. -/
structure RedisState where
  connected : Bool
  failing : Bool
  counters : String → ℕ
  cache : String → Option (Py × ℕ)
  lastSeen : String → Option ℕ
  activeDevices : List String

/-- Fixed model date for the daily-counter key (the code keys it by the
current UTC date). -/
def today : String := "2026-10-12"

def cacheKey (d : String) : String := "device:" ++ d ++ ":info"
def dailyKey (d : String) : String := "device:" ++ d ++ ":data_points:" ++ today
def totalKey (d : String) : String := "device:" ++ d ++ ":data_points:total"
def globalTodayKey : String := "stats:data_points:today"
def globalTotalKey : String := "stats:data_points:total"

/-- `INCRBY key n` on the counter table. -/
def bump (f : String → ℕ) (key : String) (n : ℕ) : String → ℕ :=
  fun k => if k = key then f k + n else f k

/-- `RedisService.increment_device_data_points`: no-op when
disconnected; increments the device daily counter, the device total
counter and both global counters by `count`; swallows store errors. -/
def incrementDeviceDataPoints (r : RedisState) (deviceId : String) (count : ℕ) :
    RedisState :=
  if !r.connected then r
  else if r.failing then r
  else
    let cs := bump (bump (bump (bump r.counters (dailyKey deviceId) count) (totalKey deviceId) count) globalTodayKey count) globalTotalKey count
    { r with counters := cs }

/-- `RedisService.cache_device_info`: `SETEX` of the device-info key
with the given TTL; no-op when disconnected, swallows store errors. -/
def cacheDeviceInfo (r : RedisState) (now : ℕ) (deviceId : String) (info : Py)
    (ttl : ℕ) : RedisState :=
  if !r.connected then r
  else if r.failing then r
  else
    { r with cache := fun k =>
        if k = cacheKey deviceId then some (info, now + ttl) else r.cache k }

/-- `RedisService.get_cached_device_info`: `none` when disconnected, on
a store error, on a missing key, or at or past the entry's expiry.  (The
JSON round trip through the store is treated as the identity.) -/
def getCachedDeviceInfo (r : RedisState) (now : ℕ) (deviceId : String) :
    Option Py :=
  if !r.connected then none
  else if r.failing then none
  else
    match r.cache (cacheKey deviceId) with
    | some (v, exp) => if now < exp then some v else none
    | none => none

/-- `RedisService.update_device_last_seen`: records the current time and
adds the device to the active set; no-op when disconnected, swallows
store errors. -/
def updateDeviceLastSeen (r : RedisState) (now : ℕ) (deviceId : String) :
    RedisState :=
  if !r.connected then r
  else if r.failing then r
  else
    { r with
        lastSeen := fun k => if k = deviceId then some now else r.lastSeen k,
        activeDevices :=
          if r.activeDevices.contains deviceId then r.activeDevices
          else r.activeDevices ++ [deviceId] }

/-! ### World state -/

/-- State threaded through the engine: the clock, the producer, the
store, the device-registry oracle (device id to the optional 200
response body; `none` covers both a non-200 status and a transport
error, which the client treats alike), and a count of remote directory
lookups issued. -/
structure World where
  now : ℕ
  kafka : KafkaState
  redis : RedisState
  registry : String → Option Py
  lookups : ℕ

/-! ### Device directory client
(`DataIngestionService._get_device_info`) -/

/-- `_get_device_info`: serve from the Redis cache when possible;
otherwise issue one remote registry lookup (counted in `lookups`); on a
200 response cache the body with a 300-second TTL and return it; on a
non-200 response or a transport error return `None` without caching.
Never raises: the remote call is inside its own `try/except`. -/
def getDeviceInfoSvc (w : World) (deviceId : String) : Option Py × World :=
  match getCachedDeviceInfo w.redis w.now deviceId with
  | some info => (some info, w)
  | none =>
    let w1 : World := { w with lookups := w.lookups + 1 }
    match w.registry deviceId with
    | some info =>
      (some info, { w1 with redis := cacheDeviceInfo w1.redis w1.now deviceId info 300 })
    | none => (none, w1)

/-- `DataIngestionService.authenticate_device`: resolves the device via
`_get_device_info`; a missing or falsy device record yields `None`; on
success the last-seen timestamp is updated and the record returned.  The
JWT token parameter is never inspected by the implementation. -/
def authenticateDevice (w : World) (_token : String) (deviceId : String) :
    Option Py × World :=
  match getDeviceInfoSvc w deviceId with
  | (some info, w1) =>
    if pyTruthy info then
      (some info, { w1 with redis := updateDeviceLastSeen w1.redis w1.now deviceId })
    else (none, w1)
  | (none, w1) => (none, w1)

/-! ### Alert evaluator (`DataIngestionService._check_alerts`) -/

/-- Alert dict for `temp > 50` (severity `high`, threshold 50). -/
def tempHighAlert (deviceId : Py) (temp : ℚ) : Py :=
  .dict [("device_id", deviceId), ("metric", .str "temperature"),
         ("value", .num temp), ("threshold", .num 50), ("severity", .str "high"),
         ("message", .str ("High temperature detected: " ++ fmtRat temp ++ "°C"))]

/-- Alert dict for `temp < 0` (severity `medium`, threshold 0). -/
def tempLowAlert (deviceId : Py) (temp : ℚ) : Py :=
  .dict [("device_id", deviceId), ("metric", .str "temperature"),
         ("value", .num temp), ("threshold", .num 0), ("severity", .str "medium"),
         ("message", .str ("Low temperature detected: " ++ fmtRat temp ++ "°C"))]

/-- Alert dict for `battery < 10` (severity `high`, threshold 10). -/
def battAlert (deviceId : Py) (battery : ℚ) : Py :=
  .dict [("device_id", deviceId), ("metric", .str "battery_level"),
         ("value", .num battery), ("threshold", .num 10), ("severity", .str "high"),
         ("message", .str ("Low battery: " ++ fmtRat battery ++ "%"))]

/-- One loop iteration of `_check_alerts`: the temperature rule fires
for `data_type == "temperature"` on `float(dp.get("value", 0))`
(`> 50` high, elif `< 0` medium), then the battery rule for
`metric_name == "battery_level"` on `float(dp.get("value", 100))`
(`< 10` high).  Any exception (non-dict data point, unparsable value)
propagates to the caller's handler. -/
def alertsForPoint (deviceId : Py) (dp : Py) : Except PyErr (List Py) :=
  match pyGetOpt dp "data_type" with
  | .error e => .error e
  | .ok dt =>
    match ((if pyEqStr dt "temperature" then
            match pyGetD dp "value" (.num 0) with
            | .error e => .error e
            | .ok v =>
              match pyFloat v with
              | .error e => .error e
              | .ok temp =>
                .ok (if temp > 50 then [tempHighAlert deviceId temp]
                     else if temp < 0 then [tempLowAlert deviceId temp]
                     else [])
          else .ok ([] : List Py)) : Except PyErr (List Py)) with
    | .error e => .error e
    | .ok tempAlerts =>
      match pyGetOpt dp "metric_name" with
      | .error e => .error e
      | .ok mn =>
        match ((if pyEqStr mn "battery_level" then
                match pyGetD dp "value" (.num 100) with
                | .error e => .error e
                | .ok v =>
                  match pyFloat v with
                  | .error e => .error e
                  | .ok battery =>
                    .ok (if battery < 10 then [battAlert deviceId battery] else [])
              else .ok ([] : List Py)) : Except PyErr (List Py)) with
        | .error e => .error e
        | .ok battAlerts => .ok (tempAlerts ++ battAlerts)

/-- The alert-collection loop of `_check_alerts`: alerts accumulate in
input order; the first exception aborts the loop. -/
def collectAlerts (deviceId : Py) : List Py → Except PyErr (List Py)
  | [] => .ok []
  | dp :: rest =>
    match alertsForPoint deviceId dp with
    | .error e => .error e
    | .ok a =>
      match collectAlerts deviceId rest with
      | .error e => .error e
      | .ok more => .ok (a ++ more)

/-- The published alert payload: the alert dict plus a timestamp and the
device-context snapshot (dict-merge appends, since the alert dict holds
neither key). -/
def enrichAlert (alert : Py) (now : ℕ) (deviceInfo : Py) : Py :=
  match alert with
  | .dict kvs =>
    .dict (kvs ++ [("timestamp", .str (isoTimestamp now)), ("device_info", deviceInfo)])
  | other => other

/-- Publishing loop over collected alerts (alert topic, keyed by the
device id); `send_message` never raises, failed sends are dropped. -/
def sendAlerts (k : KafkaState) (now : ℕ) (deviceId : Py) (deviceInfo : Py) :
    List Py → KafkaState
  | [] => k
  | a :: rest =>
    sendAlerts (sendMessage k kafkaTopicAlerts (enrichAlert a now deviceInfo) deviceId).2
      now deviceId deviceInfo rest

/-- `DataIngestionService._check_alerts`: iterate the data points
collecting alerts, then publish each; the whole body sits in one
`try/except`, so any exception (unparsable value, non-iterable batch,
non-dict point) silently abandons the entire evaluation, publishing
nothing.  Never raises. -/
def checkAlerts (k : KafkaState) (now : ℕ) (deviceId : Py) (dataPoints : Py)
    (deviceInfo : Py) : KafkaState :=
  match pyIter dataPoints with
  | .error _ => k
  | .ok dps =>
    match collectAlerts deviceId dps with
    | .error _ => k
    | .ok alerts => sendAlerts k now deviceId deviceInfo alerts

/-! ### Ingestion engine (`DataIngestionService.process_data`) -/

/-- The field extraction at the head of `process_data`:
`data["device_id"]`, `data["data"]`, and the four optional `.get`
fields; any failure here happens before the first side effect. -/
def extractRequest (data : Py) :
    Except PyErr (Py × Py × Py × Py × Py × Py) :=
  match pyGetItem data "device_id" with
  | .error e => .error e
  | .ok deviceId =>
    match pyGetItem data "data" with
    | .error e => .error e
    | .ok dataPoints =>
      match pyGetOpt data "batch_id" with
      | .error e => .error e
      | .ok batchId =>
        match pyGetOpt data "location" with
        | .error e => .error e
        | .ok location =>
          match pyGetOpt data "firmware_version" with
          | .error e => .error e
          | .ok firmware =>
            match pyGetOpt data "battery_level" with
            | .error e => .error e
            | .ok battery => .ok (deviceId, dataPoints, batchId, location, firmware, battery)

/-- The enriched envelope built by `process_data`. -/
def enrichedEnvelope (now : ℕ) (deviceId deviceInfo dataPoints batchId location firmware battery : Py) : Py :=
  .dict [("device_id", deviceId), ("device_info", deviceInfo),
         ("data", dataPoints), ("received_at", .str (isoTimestamp now)),
         ("batch_id", batchId), ("location", location),
         ("firmware_version", firmware), ("battery_level", battery)]

/-- The `except` branch of `process_data`: publish a failure record
(error text, original payload, timestamp) to the error topic, keyed by
`data.get("device_id", "unknown")`.  That `.get` itself raises when
`data` is not a dict, and only then does an exception escape
`process_data`. -/
def handleProcessException (w : World) (data : Py) (e : PyErr) :
    Except PyErr World :=
  match pyGetD data "device_id" (.str "unknown") with
  | .error e2 => .error e2
  | .ok key =>
    let failureRecord : Py :=
      .dict [("error", .str (errStr e)), ("data", data),
             ("timestamp", .str (isoTimestamp w.now))]
    .ok { w with kafka := (sendMessage w.kafka kafkaTopicErrors failureRecord key).2 }

/-- `DataIngestionService.process_data`.  The Python function body has
no `return` statement, so the caller-visible result is `None` on every
non-raising path; the model returns that value explicitly alongside the
final world.  Order of effects: build the envelope, publish it to the
data topic keyed by the device id (the boolean result of `send_message`
is discarded), compute `len(data_points)` (a raise here lands in the
`except` branch with the data-topic publish already done), increment the
device and global counters, then run `_check_alerts` (which swallows its
own errors). -/
def processData (w : World) (data : Py) (deviceInfo : Py) :
    Except PyErr (World × Py) :=
  match extractRequest data with
  | .error e => (handleProcessException w data e).map (fun w2 => (w2, Py.none))
  | .ok (deviceId, dataPoints, batchId, location, firmware, battery) =>
    let enriched := enrichedEnvelope w.now deviceId deviceInfo dataPoints batchId location firmware battery
    let w1 : World := { w with kafka := (sendMessage w.kafka kafkaTopicData enriched deviceId).2 }
    match pyLen dataPoints with
    | .error e => (handleProcessException w1 data e).map (fun w2 => (w2, Py.none))
    | .ok n =>
      let w2 : World := { w1 with redis := incrementDeviceDataPoints w1.redis (fstr deviceId) n }
      let w3 : World := { w2 with kafka := checkAlerts w2.kafka w2.now deviceId dataPoints deviceInfo }
      .ok (w3, Py.none)

/-! ### Subscription ingress (`mqtt_service.py`)

The model is at the dispatch level: given an inbound `(topic, payload)`
pair it returns the list of ingestion-engine invocations the handlers
issue.  `serviceSet` is whether `set_ingestion_service` has been called
on the `MQTTService` (the deployed `main.py` never calls it). -/

/-- An invocation of the ingestion engine issued by an MQTT handler. -/
inductive EngineCall where
  | processBatch (data : Py) (deviceInfo : Py)
  | reportHealth (deviceId : String) (isHealthy : Py) (message : Py)

/-- An inbound payload, at the JSON level: either structured data or an
undecodable body (`json.loads` raises on it). -/
inductive MqttPayload where
  | json (p : Py)
  | invalid

/-- `json.loads(payload)`; `JSONDecodeError` is a `ValueError`. -/
def jsonLoads : MqttPayload → Except PyErr Py
  | .json p => .ok p
  | .invalid => .error .valueError

/-- `topic.split(sep)` at the character-list level (structural, so that
concrete topics evaluate). -/
def splitOnChar (sep : Char) : List Char → List (List Char)
  | [] => [[]]
  | c :: rest =>
    let r := splitOnChar sep rest
    if c = sep then [] :: r
    else
      match r with
      | [] => [[c]]
      | g :: gs => (c :: g) :: gs

/-- Python `topic.split("/")`. -/
def topicSplit (topic : String) : List String :=
  (splitOnChar '/' topic.toList).map (fun l => String.mk l)

/-- The topic test in `MQTTService._on_message`: at least three
`/`-separated segments and first segment `iot`; segments two and three
become the device id and message type (any further segments are
ignored).  `none` means the message is logged and dropped. -/
def parseTopic (topic : String) : Option (String × String) :=
  match topicSplit topic with
  | ns :: deviceId :: messageType :: _ =>
    if ns = "iot" then some (deviceId, messageType) else none
  | _ => none

/-- `MQTTService._handle_data_message`: no engine call when the
ingestion service was never attached; otherwise build the synthetic
ingestion request (`data.get("data", [])` plus the optional fields) and
a lightweight device context, and invoke `process_data`.  A non-dict
payload raises inside the handler's `try` and is dropped. -/
def handleDataMessage (serviceSet : Bool) (deviceId : String) (data : Py) :
    List EngineCall :=
  if !serviceSet then []
  else
    match pyGetD data "data" (.list []) with
    | .error _ => []
    | .ok readings =>
      match pyGetOpt data "batch_id" with
      | .error _ => []
      | .ok batchId =>
        match pyGetOpt data "location" with
        | .error _ => []
        | .ok location =>
          match pyGetOpt data "firmware_version" with
          | .error _ => []
          | .ok firmware =>
            match pyGetOpt data "battery_level" with
            | .error _ => []
            | .ok battery =>
              let req : Py :=
                .dict [("device_id", .str deviceId), ("data", readings),
                       ("batch_id", batchId), ("location", location),
                       ("firmware_version", firmware), ("battery_level", battery)]
              let deviceInfo : Py :=
                .dict [("device_id", .str deviceId), ("device_type", .str "sensor")]
              [.processBatch req deviceInfo]

/-- `MQTTService._handle_health_message`: extracts
`data.get("is_healthy", True)` and `data.get("message")` and invokes
`update_device_health`; errors are logged and dropped. -/
def handleHealthMessage (serviceSet : Bool) (deviceId : String) (data : Py) :
    List EngineCall :=
  if !serviceSet then []
  else
    match pyGetD data "is_healthy" (.bool true) with
    | .error _ => []
    | .ok isHealthy =>
      match pyGetOpt data "message" with
      | .error _ => []
      | .ok message => [.reportHealth deviceId isHealthy message]

/-- `MQTTService._handle_mqtt_message`: decode the payload (decode
failure is logged and dropped) and dispatch on the message type;
`status` is forwarded to the health handler, `alert` is only logged
(no engine call), unknown types are logged and dropped. -/
def handleMqttMessage (serviceSet : Bool) (deviceId messageType : String)
    (payload : MqttPayload) : List EngineCall :=
  match jsonLoads payload with
  | .error _ => []
  | .ok data =>
    if messageType = "data" then handleDataMessage serviceSet deviceId data
    else if messageType = "health" then handleHealthMessage serviceSet deviceId data
    else if messageType = "status" then handleHealthMessage serviceSet deviceId data
    else []

/-- `MQTTService._on_message`: parse the topic; on a malformed topic
(fewer than three segments, or namespace other than `iot`) log and
drop; otherwise dispatch.  (No custom per-topic handlers are ever
registered by this repository, so that branch is vacuous.) -/
def onMessage (serviceSet : Bool) (topic : String) (payload : MqttPayload) :
    List EngineCall :=
  match parseTopic topic with
  | some (deviceId, messageType) => handleMqttMessage serviceSet deviceId messageType payload
  | none => []

/-! ### Reading schema (`schemas/ingestion.py`, `DataPoint`) -/

/-- The closed `DataType` enumeration. -/
inductive DataTypeE where
  | temperature
  | humidity
  | pressure
  | light
  | motion
  | voltage
  | current
  | power
  | gps
  | custom
deriving DecidableEq

def DataTypeE.toStr : DataTypeE → String
  | .temperature => "temperature"
  | .humidity => "humidity"
  | .pressure => "pressure"
  | .light => "light"
  | .motion => "motion"
  | .voltage => "voltage"
  | .current => "current"
  | .power => "power"
  | .gps => "gps"
  | .custom => "custom"

def dataTypeOfString (s : String) : Option DataTypeE :=
  if s = "temperature" then some .temperature
  else if s = "humidity" then some .humidity
  else if s = "pressure" then some .pressure
  else if s = "light" then some .light
  else if s = "motion" then some .motion
  else if s = "voltage" then some .voltage
  else if s = "current" then some .current
  else if s = "power" then some .power
  else if s = "gps" then some .gps
  else if s = "custom" then some .custom
  else none

/-- Pydantic coercion of the `value` field, whose declared type is the
union float-int-str-bool tried left to right: anything `float()` accepts
becomes a number (so bools and numeric strings land on the numeric
branch), other strings stay strings, and any other shape is a
validation error. -/
def coerceValue : Py → Option Py
  | .num q => some (.num q)
  | .bool b => some (.num (if b then 1 else 0))
  | .str s =>
    match strToRat? s with
    | some q => some (.num q)
    | none => some (.str s)
  | _ => none

/-- The raw field values handed to the `DataPoint` validator (one
serialized or externally supplied record).  `none` in an optional field
is an absent field. -/
structure RawDataPoint where
  metric_name : String
  value : Py
  unit : Option String
  data_type : String
  timestamp : Option ℕ
  quality : Option ℚ
  metadata : Option (List (String × Py))

/-- A validated `DataPoint`.  The `timestamp` field keeps the Python
`Optional[datetime]` type even though the `always` validator in fact
guarantees it is populated. -/
structure DataPoint where
  metric_name : String
  value : Py
  unit : Option String
  data_type : DataTypeE
  timestamp : Option ℕ
  quality : ℚ
  metadata : List (String × Py)

/-- `DataPoint` construction/validation at time `now`: the data type
must belong to the enumeration, the value is union-coerced, the quality
score defaults to 1 and must lie in the unit interval, the metadata map
defaults to empty, and the `set_timestamp` validator (`pre`, `always`)
replaces only an absent timestamp with `datetime.utcnow()` — a present
timestamp passes through unchanged. -/
def parseDataPoint (now : ℕ) (raw : RawDataPoint) : Option DataPoint :=
  match dataTypeOfString raw.data_type with
  | none => none
  | some dt =>
    match coerceValue raw.value with
    | none => none
    | some v =>
      if 0 ≤ raw.quality.getD 1 ∧ raw.quality.getD 1 ≤ 1 then
        some { metric_name := raw.metric_name, value := v, unit := raw.unit,
               data_type := dt, timestamp := some (raw.timestamp.getD now),
               quality := raw.quality.getD 1, metadata := raw.metadata.getD [] }
      else none

/-- Serialization of a validated `DataPoint` back to raw field values
(the inverse direction of the round trip). -/
def serializeDataPoint (p : DataPoint) : RawDataPoint :=
  { metric_name := p.metric_name, value := p.value, unit := p.unit,
    data_type := p.data_type.toStr, timestamp := p.timestamp,
    quality := some p.quality, metadata := some p.metadata }

/-! ### HTTP ingress (`main.py`, `POST /ingest`) -/

/-- A validated `DataIngestionRequest` (pydantic guarantees the length
bounds before the handler runs; the handler itself reads only the
device id and the reading list). -/
structure IngestionRequest where
  device_id : String
  data : List DataPoint
  batch_id : Option String
  location : Option Py
  firmware_version : Option String
  battery_level : Option ℚ

def optStrPy : Option String → Py
  | some s => .str s
  | none => .none

/-- `model.dict()` for one reading (nested pydantic serialization;
datetimes rendered through the same injective timestamp encoding). -/
def dataPointToPy (p : DataPoint) : Py :=
  .dict [("metric_name", .str p.metric_name), ("value", p.value),
         ("unit", optStrPy p.unit), ("data_type", .str p.data_type.toStr),
         ("timestamp", match p.timestamp with | some t => .str (isoTimestamp t) | none => .none),
         ("quality", .num p.quality), ("metadata", .dict p.metadata)]

/-- `data.dict()` for the whole request, as passed to `process_data`. -/
def requestToPy (r : IngestionRequest) : Py :=
  .dict [("device_id", .str r.device_id),
         ("data", .list (r.data.map dataPointToPy)),
         ("batch_id", optStrPy r.batch_id),
         ("location", r.location.getD Py.none),
         ("firmware_version", optStrPy r.firmware_version),
         ("battery_level", match r.battery_level with | some q => .num q | none => .none)]

/-- The HTTP response the `/ingest` handler produces. -/
inductive HTTPResponse where
  | ok (success : Bool) (message : String) (processedCount : ℕ)
  | httpError (statusCode : ℕ) (detail : String)

/-- A deferred `process_data` call queued with
`background_tasks.add_task`, run by the framework only after the
response has been sent. -/
structure BgTask where
  data : Py
  deviceInfo : Py

/-- The `/ingest` handler: authenticate, and on failure answer with an
error status (the 401 raised inside the handler's `try` is swallowed by
its blanket `except Exception` and re-raised as a 500); on success queue
`process_data` as a background task and immediately answer success with
the request's reading count.  No publish happens before the response. -/
def ingestData (w : World) (token : String) (req : IngestionRequest) :
    HTTPResponse × World × List BgTask :=
  match authenticateDevice w token req.device_id with
  | (some info, w1) =>
    (.ok true ("Successfully received " ++ toString req.data.length ++ " data points")
       req.data.length,
     w1, [⟨requestToPy req, info⟩])
  | (none, w1) => (.httpError 500 "Failed to process data", w1, [])

/-- The framework's background-task runner: each queued task runs after
the response; an exception escaping a task is logged by the framework
and affects nothing else. -/
def runBackground (w : World) (tasks : List BgTask) : World :=
  tasks.foldl
    (fun wacc t =>
      match processData wacc t.data t.deviceInfo with
      | .ok (w2, _) => w2
      | .error _ => wacc) w

/-! ### Observation helpers and concrete sample inputs -/

/-- The `severity` field of an alert dict. -/
def severityOf (alert : Py) : Option Py :=
  match alert with
  | .dict kvs => dictLookup kvs "severity"
  | _ => none

/-- Severity list of an evaluator result (counts alerts and reads each
severity, without fixing the remaining alert fields). -/
def severitiesOf (r : Except PyErr (List Py)) : Except PyErr (List (Option Py)) :=
  r.map (List.map severityOf)

/-- A dict-shaped value test (`isinstance(x, dict)`). -/
def isDict : Py → Bool
  | .dict _ => true
  | _ => false

/-- A temperature reading as it arrives in a data-point dict. -/
def tempReading (v : Py) : Py :=
  .dict [("metric_name", .str "temperature"), ("value", v),
         ("data_type", .str "temperature")]

/-- A battery-level reading (its metric name is `battery_level`; the
data-type tag is `custom` so only the battery rule can apply). -/
def batteryReading (v : Py) : Py :=
  .dict [("metric_name", .str "battery_level"), ("value", v),
         ("data_type", .str "custom")]

/-- A healthy, connected producer with an empty log. -/
def kafkaIdle : KafkaState :=
  { connected := true, failTopics := fun _ => false, log := [] }

/-- A healthy, connected, empty store. -/
def redisIdle : RedisState :=
  { connected := true, failing := false, counters := fun _ => 0,
    cache := fun _ => none, lastSeen := fun _ => none, activeDevices := [] }

/-- Sample device-registry record / device context. -/
def devInfoSample : Py :=
  .dict [("device_id", .str "dev-1"), ("device_type", .str "sensor")]

/-- A world whose producer is connected but where every publish to the
primary data topic fails (`send_and_wait` raises `KafkaError` there);
the store is healthy. -/
def dataTopicFailWorld : World :=
  { now := 0,
    kafka := { connected := true, failTopics := fun t => t == kafkaTopicData, log := [] },
    redis := redisIdle, registry := fun _ => none, lookups := 0 }

/-- A fully healthy world (every publish succeeds). -/
def healthyWorld : World :=
  { now := 0, kafka := kafkaIdle, redis := redisIdle,
    registry := fun _ => none, lookups := 0 }

/-- A valid one-reading ingestion payload for device `dev-1`. -/
def requestSample : Py :=
  .dict [("device_id", .str "dev-1"), ("data", .list [tempReading (.num 30)])]

/-- A payload whose `data` field is not a sized collection: the envelope
publishes fine but `len(data_points)` then raises.  (Reachable through
the MQTT ingress, which copies the decoded `data` field unvalidated.) -/
def badLenRequest : Py :=
  .dict [("device_id", .str "dev-1"), ("data", .num 42)]

/-- A payload missing the required `data` key: `data["data"]` raises
before any side effect. -/
def missingDataRequest : Py :=
  .dict [("device_id", .str "dev-1")]

/-- A temperature data point whose value Python's `float()` rejects. -/
def badPoint : Py :=
  .dict [("metric_name", .str "temperature"), ("value", .str "abc"),
         ("data_type", .str "temperature")]

/-- A world with an empty device-info cache and a registry that knows
exactly device `dev-1`. -/
def registryWorld : World :=
  { now := 10, kafka := kafkaIdle, redis := redisIdle,
    registry := fun i => if i = "dev-1" then some devInfoSample else none,
    lookups := 0 }

/-- A world whose registry knows no device at all. -/
def emptyRegistryWorld : World :=
  { registryWorld with registry := fun _ => none }

/-- The single reading of the C8 subscription example. -/
def sensorReading : Py :=
  .dict [("metric_name", .str "temperature"), ("value", .num 30),
         ("data_type", .str "temperature")]

/-- The C8 example payload. -/
def sensorPayload : MqttPayload :=
  .json (.dict [("data", .list [sensorReading])])

/-- The synthetic ingestion request the data handler builds for
`sensor-42` from `sensorPayload`. -/
def sensorRequest : Py :=
  .dict [("device_id", .str "sensor-42"), ("data", .list [sensorReading]),
         ("batch_id", .none), ("location", .none),
         ("firmware_version", .none), ("battery_level", .none)]

/-- The lightweight device context the MQTT data handler fabricates. -/
def sensorDeviceInfo : Py :=
  .dict [("device_id", .str "sensor-42"), ("device_type", .str "sensor")]

/-- Raw reading fields without a timestamp, for the round-trip claim. -/
def rawReadingSample : RawDataPoint :=
  { metric_name := "temperature", value := .num 30, unit := some "C",
    data_type := "temperature", timestamp := none, quality := some 1,
    metadata := some [] }

/-- The validated reading `rawReadingSample` yields at time 100. -/
def readingSample : DataPoint :=
  { metric_name := "temperature", value := .num 30, unit := some "C",
    data_type := .temperature, timestamp := some 100, quality := 1,
    metadata := [] }

/-- A one-reading HTTP ingestion request for `dev-1`. -/
def httpReqSample : IngestionRequest :=
  { device_id := "dev-1", data := [readingSample], batch_id := none,
    location := none, firmware_version := none, battery_level := none }

/-! ### Helper lemmas -/

/-- The enumeration round trip of the data-type tag. -/
theorem dataTypeOfString_toStr (dt : DataTypeE) :
    dataTypeOfString dt.toStr = some dt := by
  cases dt <;> rfl

/-- Union coercion of the reading value is idempotent: a value already
in validated form is its own coercion. -/
theorem coerceValue_idem (x v : Py) (h : coerceValue x = some v) :
    coerceValue v = some v := by
  cases x with
  | num q => simp [coerceValue] at h; subst h; rfl
  | bool b => simp [coerceValue] at h; subst h; rfl
  | str s =>
    cases hs : strToRat? s with
    | some q => simp [coerceValue, hs] at h; subst h; rfl
    | none => simp [coerceValue, hs] at h; subst h; simp [coerceValue, hs]
  | none => simp [coerceValue] at h
  | list xs => simp [coerceValue] at h
  | dict kvs => simp [coerceValue] at h

/-- The directory client never touches the producer. -/
theorem getDeviceInfo_preserves_kafka (w : World) (dvc : String) :
    (getDeviceInfoSvc w dvc).2.kafka = w.kafka := by
  unfold getDeviceInfoSvc
  cases getCachedDeviceInfo w.redis w.now dvc with
  | some info => rfl
  | none => cases w.registry dvc with
    | some info => rfl
    | none => rfl

/-- Authentication never touches the producer. -/
theorem auth_preserves_kafka (w : World) (tok dvc : String) :
    (authenticateDevice w tok dvc).2.kafka = w.kafka := by
  have hk := getDeviceInfo_preserves_kafka w dvc
  unfold authenticateDevice
  cases hg : getDeviceInfoSvc w dvc with
  | mk fst snd =>
    rw [hg] at hk
    cases fst with
    | none => simpa using hk
    | some info =>
      by_cases ht : pyTruthy info
      · simpa [ht] using hk
      · simpa [ht] using hk

/-- The authentication outcome does not depend on the producer state. -/
theorem auth_fst_ignores_kafka (w : World) (k : KafkaState) (tok dvc : String) :
    (authenticateDevice { w with kafka := k } tok dvc).1 =
      (authenticateDevice w tok dvc).1 := by
  have h1 : ({ w with kafka := k } : World).redis = w.redis := rfl
  have h2 : ({ w with kafka := k } : World).now = w.now := rfl
  have h3 : ({ w with kafka := k } : World).registry = w.registry := rfl
  unfold authenticateDevice getDeviceInfoSvc
  rw [h1, h2, h3]
  cases getCachedDeviceInfo w.redis w.now dvc with
  | some info => by_cases ht : pyTruthy info <;> simp [ht]
  | none =>
    cases w.registry dvc with
    | some info => by_cases ht : pyTruthy info <;> simp [ht]
    | none => rfl

/-! ### Claims -/

/-- C1: the claim says a failed data-topic publish produces exactly one
error-topic failure record and leaves the counters unchanged.  The code
evaluated at the failing input — a connected producer whose
`send_and_wait` to the data topic raises `KafkaError`, with a valid
one-reading request — publishes nothing to the error topic (the
producer wrapper swallows the error into a `False` return that
`process_data` discards) and still increments the per-device and global
total counters by the batch size. -/
theorem C1_publish_failure_divergence :
    ((processData dataTopicFailWorld requestSample devInfoSample).map (fun r =>
      ((msgsOnTopic r.1.kafka.log kafkaTopicErrors).length,
       r.1.redis.counters (totalKey "dev-1"),
       r.1.redis.counters globalTotalKey))) = .ok (0, 1, 1) := rfl

/-- C2: the claim says every accepted request has exactly one terminal
outcome — forwarded or error-recorded, never both, never neither.  At a
failing data-topic publish the code yields neither outcome (no message
on the data topic, none on the error topic); and on a payload whose
`data` field is not sized, the envelope is forwarded successfully and
then `len` raises into the error branch, yielding both outcomes. -/
theorem C2_terminal_outcome_divergence :
    ((processData dataTopicFailWorld requestSample devInfoSample).map (fun r =>
      ((msgsOnTopic r.1.kafka.log kafkaTopicData).length,
       (msgsOnTopic r.1.kafka.log kafkaTopicErrors).length))) = .ok (0, 0)
  ∧ ((processData healthyWorld badLenRequest devInfoSample).map (fun r =>
      ((msgsOnTopic r.1.kafka.log kafkaTopicData).length,
       (msgsOnTopic r.1.kafka.log kafkaTopicErrors).length))) = .ok (1, 1) :=
  ⟨rfl, rfl⟩

/-- C3 counterexample: the claim says `process_data` returns a result
value describing success or failure with counts.  On a run that
forwards its batch successfully and on a run that lands in the error
branch, the caller-visible return value is the same `None`, carrying no
success flag and no counts. -/
theorem C3_counterexample :
    (processData healthyWorld requestSample devInfoSample).map Prod.snd = .ok Py.none
  ∧ (processData healthyWorld missingDataRequest devInfoSample).map Prod.snd = .ok Py.none
  ∧ ((processData healthyWorld requestSample devInfoSample).map (fun r =>
      (msgsOnTopic r.1.kafka.log kafkaTopicData).length)) = .ok 1
  ∧ ((processData healthyWorld missingDataRequest devInfoSample).map (fun r =>
      (msgsOnTopic r.1.kafka.log kafkaTopicErrors).length)) = .ok 1 :=
  ⟨rfl, rfl, rfl, rfl⟩

/-- C3 (amended): for every dict-shaped payload — the only shape either
call site can pass — `process_data` never lets an exception escape, but
it returns no result value at all: the caller always receives `None`,
with no success/failure indication and no counts. -/
theorem C3_never_raises_returns_none (w : World) (data deviceInfo : Py)
    (h : isDict data = true) :
    (processData w data deviceInfo).map Prod.snd = .ok Py.none := by
  cases data with
  | dict kvs =>
    cases hex : extractRequest (.dict kvs) with
    | error e => simp [processData, hex, handleProcessException, pyGetD, Except.map]
    | ok v =>
      obtain ⟨deviceId, dataPoints, batchId, location, firmware, battery⟩ := v
      cases hlen : pyLen dataPoints with
      | error e => simp [processData, hex, hlen, handleProcessException, pyGetD, Except.map]
      | ok n => simp [processData, hex, hlen, Except.map]
  | none => simp [isDict] at h
  | bool b => simp [isDict] at h
  | num q => simp [isDict] at h
  | str s => simp [isDict] at h
  | list xs => simp [isDict] at h

/-- C3 witness: the amended theorem applied to the healthy world and
the concrete one-reading request. -/
theorem C3_witness :
    isDict requestSample = true
  ∧ (processData healthyWorld requestSample devInfoSample).map Prod.snd = .ok Py.none :=
  ⟨rfl, C3_never_raises_returns_none healthyWorld requestSample devInfoSample rfl⟩

/-- C4: on a single temperature reading the evaluator yields exactly
one `high` alert for a value strictly above 50, exactly one `medium`
alert for a value strictly below 0, and no alert otherwise; on a single
reading whose metric name is exactly `battery_level` it yields exactly
one `high` alert for a value strictly below 10 and no alert
otherwise. -/
theorem C4_default_alert_rules (d : Py) (q : ℚ) :
    (q > 50 → severitiesOf (alertsForPoint d (tempReading (.num q))) = .ok [some (.str "high")])
  ∧ (q < 0 → severitiesOf (alertsForPoint d (tempReading (.num q))) = .ok [some (.str "medium")])
  ∧ (0 ≤ q → q ≤ 50 → alertsForPoint d (tempReading (.num q)) = .ok [])
  ∧ (q < 10 → severitiesOf (alertsForPoint d (batteryReading (.num q))) = .ok [some (.str "high")])
  ∧ (10 ≤ q → alertsForPoint d (batteryReading (.num q)) = .ok []) := by
  have htemp : alertsForPoint d (tempReading (.num q)) =
      .ok ((if q > 50 then [tempHighAlert d q]
            else if q < 0 then [tempLowAlert d q] else []) ++ []) := rfl
  have hbatt : alertsForPoint d (batteryReading (.num q)) =
      .ok (([] : List Py) ++ (if q < 10 then [battAlert d q] else [])) := rfl
  refine ⟨?_, ?_, ?_, ?_, ?_⟩
  · intro h
    rw [severitiesOf, htemp, if_pos h]; rfl
  · intro h
    rw [severitiesOf, htemp, if_neg (not_lt.mpr (by linarith : q ≤ 50)), if_pos h]; rfl
  · intro h0 h50
    rw [htemp, if_neg (not_lt.mpr h50), if_neg (not_lt.mpr h0)]; rfl
  · intro h
    rw [severitiesOf, hbatt, if_pos h]; rfl
  · intro h
    rw [hbatt, if_neg (not_lt.mpr h)]; rfl

/-- C4 witness: the five rules at the concrete values named by the
claim — temperature 55, −5 and 25, battery level 5 and 50. -/
theorem C4_witness :
    severitiesOf (alertsForPoint (.str "dev-1") (tempReading (.num 55))) = .ok [some (.str "high")]
  ∧ severitiesOf (alertsForPoint (.str "dev-1") (tempReading (.num (-5)))) = .ok [some (.str "medium")]
  ∧ alertsForPoint (.str "dev-1") (tempReading (.num 25)) = .ok []
  ∧ severitiesOf (alertsForPoint (.str "dev-1") (batteryReading (.num 5))) = .ok [some (.str "high")]
  ∧ alertsForPoint (.str "dev-1") (batteryReading (.num 50)) = .ok [] :=
  ⟨(C4_default_alert_rules (.str "dev-1") 55).1 (by norm_num),
   (C4_default_alert_rules (.str "dev-1") (-5)).2.1 (by norm_num),
   (C4_default_alert_rules (.str "dev-1") 25).2.2.1 (by norm_num) (by norm_num),
   (C4_default_alert_rules (.str "dev-1") 5).2.2.2.1 (by norm_num),
   (C4_default_alert_rules (.str "dev-1") 50).2.2.2.2 (by norm_num)⟩

/-- C5 counterexample: the claim says a reading with an unparsable
numeric value is skipped without affecting the other readings of the
batch.  In a batch holding such a reading followed by a temperature-55
reading, the evaluator publishes no alert at all, while the 55 reading
alone publishes one. -/
theorem C5_counterexample :
    (checkAlerts kafkaIdle 0 (.str "dev-1")
        (.list [badPoint, tempReading (.num 55)]) devInfoSample).log = []
  ∧ (checkAlerts kafkaIdle 0 (.str "dev-1")
        (.list [tempReading (.num 55)]) devInfoSample).log.length = 1 :=
  ⟨rfl, rfl⟩

/-- C5 (amended): the evaluator indeed never throws and publishes no
error for an unparsable numeric value, but it does not skip just that
reading: the exception aborts the single `try` block around the whole
loop, so a batch containing any reading on which the per-point
evaluation raises produces no alert for any of its readings — the
producer state is left untouched. -/
theorem C5_bad_value_aborts_batch (k : KafkaState) (now : ℕ) (d di : Py)
    (pre : List Py) (dp : Py) (post : List Py) (e : PyErr) (pres : List Py)
    (hpre : collectAlerts d pre = .ok pres)
    (hdp : alertsForPoint d dp = .error e) :
    checkAlerts k now d (.list (pre ++ dp :: post)) di = k := by
  have habort : collectAlerts d (pre ++ dp :: post) = .error e := by
    induction pre generalizing pres with
    | nil => simp [collectAlerts, hdp]
    | cons p ps ih =>
      cases hp : alertsForPoint d p with
      | error e2 => simp [collectAlerts, hp] at hpre
      | ok a =>
        cases hps : collectAlerts d ps with
        | error e2 => simp [collectAlerts, hp, hps] at hpre
        | ok more =>
          have := ih more hps
          simp [collectAlerts, hp, this]
  simp [checkAlerts, pyIter, habort]

/-- C5 witness: the amended theorem at the concrete batch of the
counterexample — an unparsable temperature reading followed by a
temperature-55 reading. -/
theorem C5_witness :
    collectAlerts (.str "dev-1") [] = .ok []
  ∧ alertsForPoint (.str "dev-1") badPoint = .error .valueError
  ∧ checkAlerts kafkaIdle 7 (.str "dev-1")
      (.list [badPoint, tempReading (.num 55)]) devInfoSample = kafkaIdle :=
  ⟨rfl, rfl,
   C5_bad_value_aborts_batch kafkaIdle 7 (.str "dev-1") devInfoSample
     [] badPoint [tempReading (.num 55)] .valueError [] rfl rfl⟩

/-- C6: with a healthy state store, a first authentication for a device
with no cache entry issues exactly one directory lookup, caches the
returned context with expiry 300 seconds after the current time, and
records the last-seen timestamp; a second authentication before the
expiry issues no further lookup, returns the cached context, and again
updates the last-seen timestamp to its own time; an authentication at
or after the expiry succeeds, issues exactly one more lookup, and also
updates the last-seen timestamp — so every successful authentication
in the scenario refreshes last-seen in the state store. -/
theorem C6_auth_cache_ttl (w : World) (tok1 tok2 tok3 dvc : String) (info : Py)
    (t2 t3 : ℕ)
    (hconn : w.redis.connected = true) (hfail : w.redis.failing = false)
    (hmiss : w.redis.cache (cacheKey dvc) = none)
    (hreg : w.registry dvc = some info) (htru : pyTruthy info = true)
    (ht2 : t2 < w.now + 300) (ht3 : w.now + 300 ≤ t3) :
    (authenticateDevice w tok1 dvc).1 = some info
  ∧ (authenticateDevice w tok1 dvc).2.lookups = w.lookups + 1
  ∧ (authenticateDevice w tok1 dvc).2.redis.cache (cacheKey dvc) = some (info, w.now + 300)
  ∧ (authenticateDevice w tok1 dvc).2.redis.lastSeen dvc = some w.now
  ∧ (authenticateDevice { (authenticateDevice w tok1 dvc).2 with now := t2 } tok2 dvc).1 = some info
  ∧ (authenticateDevice { (authenticateDevice w tok1 dvc).2 with now := t2 } tok2 dvc).2.lookups = w.lookups + 1
  ∧ (authenticateDevice { (authenticateDevice w tok1 dvc).2 with now := t2 } tok2 dvc).2.redis.lastSeen dvc = some t2
  ∧ (authenticateDevice { (authenticateDevice w tok1 dvc).2 with now := t3 } tok3 dvc).1 = some info
  ∧ (authenticateDevice { (authenticateDevice w tok1 dvc).2 with now := t3 } tok3 dvc).2.lookups = w.lookups + 2
  ∧ (authenticateDevice { (authenticateDevice w tok1 dvc).2 with now := t3 } tok3 dvc).2.redis.lastSeen dvc = some t3 := by
  have hnt3 : ¬ (t3 < w.now + 300) := not_lt.mpr ht3
  refine ⟨?_, ?_, ?_, ?_, ?_, ?_, ?_, ?_, ?_, ?_⟩ <;>
    simp [authenticateDevice, getDeviceInfoSvc, getCachedDeviceInfo,
      cacheDeviceInfo, updateDeviceLastSeen, hconn, hfail, hmiss, hreg, htru,
      ht2, hnt3]

/-- C6 witness: the theorem at the concrete registry world (device
`dev-1`, first call at time 10, second at 100, third at 400): one
lookup, then still one, then two; last-seen refreshed to 10, 100 and
400 by the three successful authentications. -/
theorem C6_witness :
    (authenticateDevice registryWorld "token-a" "dev-1").1 = some devInfoSample
  ∧ (authenticateDevice registryWorld "token-a" "dev-1").2.lookups = 1
  ∧ (authenticateDevice registryWorld "token-a" "dev-1").2.redis.lastSeen "dev-1" = some 10
  ∧ (authenticateDevice { (authenticateDevice registryWorld "token-a" "dev-1").2 with now := 100 } "token-b" "dev-1").2.lookups = 1
  ∧ (authenticateDevice { (authenticateDevice registryWorld "token-a" "dev-1").2 with now := 100 } "token-b" "dev-1").2.redis.lastSeen "dev-1" = some 100
  ∧ (authenticateDevice { (authenticateDevice registryWorld "token-a" "dev-1").2 with now := 400 } "token-c" "dev-1").2.lookups = 2
  ∧ (authenticateDevice { (authenticateDevice registryWorld "token-a" "dev-1").2 with now := 400 } "token-c" "dev-1").2.redis.lastSeen "dev-1" = some 400 := by
  obtain ⟨h1, h2, h3, h4, h5, h6, h7, h8, h9, h10⟩ :=
    C6_auth_cache_ttl registryWorld "token-a" "token-b" "token-c" "dev-1"
      devInfoSample 100 400 rfl rfl rfl rfl rfl (by decide) (by decide)
  exact ⟨h1, h2, h4, h6, h7, h9, h10⟩

/-- C7 counterexample: the claim says an invalid credential for a
registered device yields an authentication failure.  The implementation
never inspects the token: for registered device `dev-1` an arbitrary
invalid token authenticates successfully, and the result is literally
identical to the one any other token produces. -/
theorem C7_counterexample :
    (authenticateDevice registryWorld "invalid-token" "dev-1").1 = some devInfoSample
  ∧ authenticateDevice registryWorld "invalid-token" "dev-1" =
      authenticateDevice registryWorld "some-other-token" "dev-1" :=
  ⟨rfl, rfl⟩

/-- C7 (amended): authentication fails (returns no context, which the
HTTP layer maps to an auth failure) when the device is neither cached
nor known to the directory — the NotFound half of the claim; but
credential verification never happens: the result is independent of the
token, so an invalid credential for a registered device authenticates
successfully and no Invalid-credential failure can occur. -/
theorem C7_auth_notfound_token_ignored (w : World) (tok tok2 dvc : String) :
    authenticateDevice w tok dvc = authenticateDevice w tok2 dvc
  ∧ (w.redis.cache (cacheKey dvc) = none → w.registry dvc = none →
      (authenticateDevice w tok dvc).1 = none) := by
  constructor
  · rfl
  · intro hmiss hreg
    have hc : getCachedDeviceInfo w.redis w.now dvc = none := by
      simp [getCachedDeviceInfo, hmiss]
    simp [authenticateDevice, getDeviceInfoSvc, hc, hreg]

/-- C7 witness: the amended theorem at a world whose registry is empty;
device `ghost` is neither cached nor registered, and authentication
with an arbitrary token returns no context. -/
theorem C7_witness :
    emptyRegistryWorld.redis.cache (cacheKey "ghost") = none
  ∧ emptyRegistryWorld.registry "ghost" = none
  ∧ (authenticateDevice emptyRegistryWorld "any-token" "ghost").1 = none :=
  ⟨rfl, rfl,
   (C7_auth_notfound_token_ignored emptyRegistryWorld "any-token" "other" "ghost").2 rfl rfl⟩

/-- C8 counterexample: the claim says a topic with the wrong segment
count is logged and dropped with no engine invocation.  The handler
only requires at least three segments: the four-segment topic
`iot/sensor-42/data/extra` is accepted and produces one engine
invocation. -/
theorem C8_counterexample :
    (topicSplit "iot/sensor-42/data/extra").length = 4
  ∧ onMessage true "iot/sensor-42/data/extra" sensorPayload =
      [.processBatch sensorRequest sensorDeviceInfo] :=
  ⟨rfl, rfl⟩

/-- C8 (amended): a topic with fewer than three `/`-segments, or whose
first segment is not `iot`, is dropped with no engine invocation;
topics with three or more `iot`-namespaced segments are accepted, the
second and third segments taken as device id and message type (extra
segments are ignored, not rejected).  With the engine attached, the
message on `iot/sensor-42/data` carrying the example payload yields
exactly one `process_data` invocation whose request is for device
`sensor-42` and carries exactly the one reading. -/
theorem C8_topic_dispatch (s : Bool) (topic : String) (payload : MqttPayload)
    (hbad : (topicSplit topic).length < 3 ∨ (topicSplit topic).headD "" ≠ "iot") :
    onMessage s topic payload = []
  ∧ onMessage true "iot/sensor-42/data" sensorPayload =
      [.processBatch sensorRequest sensorDeviceInfo]
  ∧ pyGetItem sensorRequest "device_id" = .ok (.str "sensor-42")
  ∧ pyGetItem sensorRequest "data" = .ok (.list [sensorReading]) := by
  refine ⟨?_, rfl, rfl, rfl⟩
  have hp : parseTopic topic = none := by
    unfold parseTopic
    cases hts : topicSplit topic with
    | nil => rfl
    | cons a rest =>
      cases rest with
      | nil => rfl
      | cons b rest2 =>
        cases rest2 with
        | nil => rfl
        | cons c rest3 =>
          rw [hts] at hbad
          have ha : ¬ a = "iot" := by
            rcases hbad with h | h
            · exact absurd h (by simp)
            · simpa using h
          show (if a = "iot" then some (b, c) else none) = none
          rw [if_neg ha]
  simp [onMessage, hp]

/-- C8 witness: the amended theorem at the dropped topic `bad/topic`
(two segments, namespace not `iot`). -/
theorem C8_witness :
    ((topicSplit "bad/topic").length < 3 ∨ (topicSplit "bad/topic").headD "" ≠ "iot")
  ∧ onMessage true "bad/topic" sensorPayload = [] := by
  have hb : ((topicSplit "bad/topic").length < 3 ∨ (topicSplit "bad/topic").headD "" ≠ "iot") := by
    left; decide
  exact ⟨hb, (C8_topic_dispatch true "bad/topic" sensorPayload hb).1⟩

/-- C9: a reading validated without an explicit timestamp gets the
ingestion time as its timestamp, exactly once: serializing it and
re-validating it at any later time reproduces every field exactly —
the timestamp included, which is non-null and never rewritten. -/
theorem C9_reading_roundtrip (now now2 : ℕ) (raw : RawDataPoint) (p : DataPoint)
    (hts : raw.timestamp = none)
    (hp : parseDataPoint now raw = some p) :
    parseDataPoint now2 (serializeDataPoint p) = some p
  ∧ p.timestamp = some now := by
  unfold parseDataPoint at hp
  split at hp
  · exact absurd hp (by simp)
  · rename_i dt hdt
    split at hp
    · exact absurd hp (by simp)
    · rename_i v hv
      split at hp
      · rename_i hq
        injection hp with hp2
        subst hp2
        refine ⟨?_, by simp [hts]⟩
        unfold parseDataPoint serializeDataPoint
        simp [dataTypeOfString_toStr, coerceValue_idem _ _ hv, hts, hq.1, hq.2]
      · exact absurd hp (by simp)

/-- C9 witness: the round trip at the concrete raw reading without a
timestamp, validated at time 100 and re-validated at time 999. -/
theorem C9_witness :
    rawReadingSample.timestamp = none
  ∧ parseDataPoint 100 rawReadingSample = some readingSample
  ∧ parseDataPoint 999 (serializeDataPoint readingSample) = some readingSample
  ∧ readingSample.timestamp = some 100 := by
  have h := C9_reading_roundtrip 100 999 rawReadingSample readingSample rfl rfl
  exact ⟨rfl, rfl, h.1, h.2⟩

/-- C10 (implicit): for an HTTP ingest request whose device
authenticates, the handler answers success with `processed_count` equal
to the request's reading count; at response time nothing has been
published (the producer log is untouched) and the single queued
background task is the deferred `process_data` call — so the response
is identical no matter what the producer state is, i.e. a later publish
failure cannot change what the caller received. -/
theorem C10_response_before_publish (w : World) (token : String)
    (req : IngestionRequest) (info : Py)
    (hauth : (authenticateDevice w token req.device_id).1 = some info) :
    (ingestData w token req).1 =
      .ok true ("Successfully received " ++ toString req.data.length ++ " data points")
        req.data.length
  ∧ (ingestData w token req).2.1.kafka.log = w.kafka.log
  ∧ (ingestData w token req).2.2 = [⟨requestToPy req, info⟩]
  ∧ (∀ k : KafkaState, (ingestData { w with kafka := k } token req).1 =
      (ingestData w token req).1) := by
  cases hg : authenticateDevice w token req.device_id with
  | mk fst snd =>
    rw [hg] at hauth
    simp only at hauth
    subst hauth
    have hk := auth_preserves_kafka w token req.device_id
    rw [hg] at hk
    refine ⟨?_, ?_, ?_, ?_⟩
    · simp [ingestData, hg]
    · simp only [ingestData, hg]
      rw [hk]
    · simp [ingestData, hg]
    · intro k
      have hfst := auth_fst_ignores_kafka w k token req.device_id
      rw [hg] at hfst
      cases hg2 : authenticateDevice { w with kafka := k } token req.device_id with
      | mk fst2 snd2 =>
        rw [hg2] at hfst
        simp only at hfst
        subst hfst
        simp [ingestData, hg, hg2]

/-- C10 witness: the theorem at the registry world and the concrete
one-reading request: success with count 1, empty producer log at
response time. -/
theorem C10_witness :
    (authenticateDevice registryWorld "tok" "dev-1").1 = some devInfoSample
  ∧ (ingestData registryWorld "tok" httpReqSample).1 =
      .ok true "Successfully received 1 data points" 1
  ∧ (ingestData registryWorld "tok" httpReqSample).2.1.kafka.log = [] := by
  have h := C10_response_before_publish registryWorld "tok" httpReqSample devInfoSample rfl
  exact ⟨rfl, h.1, h.2.1⟩

end IoTIngest
